import Mathlib

/-!
Verification of the GryLin document/alert pipeline.

Shallow embedding of the TypeScript sources:
* `src/lib/scamDetector.ts` — rule-based scam risk scorer (`detectScam`);
* `src/lib/ocr.ts` — analysis validator (`validateDocumentAnalysis`) and
  request throttle (`RateLimiter`);
* `src/unnamed/part_008` — transactional email classifier (`isTransactionalEmail`);
* `src/stores/guardianStore.ts` — deadline alert scheduler (`checkDeadlines`,
  `dismissAlertsForItem`);
* `src/stores/itemsStore.ts` — folder router (`determineFolderName`),
  `markAsPaid`, `scanDocument`.

JavaScript strings are modelled as Lean `String`, JS numbers occurring in
scoring as `Nat`, amounts as `Rat`, epoch-millisecond timestamps as `Int`.
-/

namespace GryLin

/-- Models JS `String.prototype.toLowerCase` (ASCII range): lowercases each
character of the string. Defined over the character list so that it reduces
inside the kernel. -/
def jsToLower (s : String) : String :=
  String.mk (s.data.map Char.toLower)

/-- Substring search helper: does `needle` occur at the start of some suffix
of the second list? -/
def listContainsSeq (needle : List Char) : List Char → Bool
  | [] => needle.isEmpty
  | c :: rest => needle.isPrefixOf (c :: rest) || listContainsSeq needle rest

/-- Models JS `String.prototype.includes`: substring containment on the
underlying character lists. -/
def jsIncludes (hay needle : String) : Bool :=
  listContainsSeq needle.data hay.data

/-- Models the JS `\s` character class (ASCII part: space, tab, LF, CR,
vertical tab, form feed). -/
def isJsSpace (c : Char) : Bool :=
  c = ' ' || c = '\t' || c = '\n' || c = '\r' || c.toNat = 11 || c.toNat = 12

/-- Runs a matcher at every suffix of a character list; models an unanchored
regex search. -/
def scanSuffixes (f : List Char → Bool) : List Char → Bool
  | [] => f []
  | c :: rest => f (c :: rest) || scanSuffixes f rest

/-- Matches `w1\s+w2` at the head of a character list (first word, then one or
more whitespace characters, then the second word). -/
def phraseWithSpaceAt (w1 w2 : String) (l : List Char) : Bool :=
  w1.data.isPrefixOf l &&
    (let r := l.drop w1.data.length
     let r1 := r.dropWhile isJsSpace
     decide (r1.length < r.length) && w2.data.isPrefixOf r1)

/-- Models the regex `/w1\s+w2/i` tested against a string (the string is
lowercased by the caller, matching the `i` flag on all-lowercase patterns). -/
def hasPhraseWithSpace (w1 w2 : String) (content : String) : Bool :=
  scanSuffixes (phraseWithSpaceAt w1 w2) content.data

-- ===========================================================================
-- src/lib/scamDetector.ts
-- ===========================================================================

/-- Result of `detectScam` (`ScamAnalysis` in `src/lib/scamDetector.ts`). -/
structure ScamAnalysis where
  is_scam : Bool
  risk_score : Nat
  scam_indicators : List String
  recommendation : String
deriving DecidableEq

/-- `URGENCY_PATTERNS` from `src/lib/scamDetector.ts`. -/
def URGENCY_PATTERNS : List String :=
  [ "account blocked"
  , "account suspended"
  , "act now"
  , "act immediately"
  , "verify immediately"
  , "urgent action required"
  , "immediate action"
  , "your account will be"
  , "within 24 hours"
  , "within 48 hours"
  , "limited time"
  , "expires today"
  , "final notice"
  , "last warning"
  , "failure to respond"
  , "avoid suspension"
  , "prevent closure" ]

/-- `SENSITIVE_INFO_PATTERNS` from `src/lib/scamDetector.ts`. -/
def SENSITIVE_INFO_PATTERNS : List String :=
  [ "password"
  , "pin number"
  , "otp"
  , "one-time password"
  , "social security"
  , "bank account number"
  , "credit card number"
  , "cvv"
  , "security code"
  , "login credentials"
  , "verify your identity"
  , "confirm your details"
  , "update your information"
  , "click here to verify"
  , "click the link below" ]

/-- Helper for `extractDomain`: models the regex `/@([^>]+)/` — at the first
`@` that is followed by at least one non-`>` character, capture the maximal
run of non-`>` characters; otherwise keep scanning. -/
def extractDomainAux : List Char → List Char
  | [] => []
  | c :: rest =>
    if c = '@' then
      let dom := rest.takeWhile (fun d => d ≠ '>')
      if dom.isEmpty then extractDomainAux rest else dom
    else extractDomainAux rest

/-- `extractDomain` from `src/lib/scamDetector.ts`: domain of an email
address, lowercased; empty string when the regex does not match. -/
def extractDomain (email : String) : String :=
  jsToLower (String.mk (extractDomainAux email.data))

/-- `detectUrgencyLanguage`: urgency phrases contained in the lowercased
content. -/
def detectUrgencyLanguage (content : String) : List String :=
  let lowerContent := jsToLower content
  URGENCY_PATTERNS.filter (fun p => jsIncludes lowerContent p)

/-- `detectSensitiveInfoRequests`: sensitive-information phrases contained in
the lowercased content. -/
def detectSensitiveInfoRequests (content : String) : List String :=
  let lowerContent := jsToLower content
  SENSITIVE_INFO_PATTERNS.filter (fun p => jsIncludes lowerContent p)

/-- Models the regex `/\d{4,}/`: four or more consecutive digits somewhere in
the list. -/
def hasFourDigitRun : List Char → Bool
  | a :: b :: c :: d :: rest =>
    (a.isDigit && b.isDigit && c.isDigit && d.isDigit)
      || hasFourDigitRun (b :: c :: d :: rest)
  | _ => false

/-- Models the hyphen-run regex (two or more consecutive hyphens). -/
def hasDoubleHyphen : List Char → Bool
  | a :: b :: rest => (a = '-' && b = '-') || hasDoubleHyphen (b :: rest)
  | _ => false

/-- The suspicious TLDs of the regex `/\.(xyz|top|club|work|click|link|gq|ml|cf|tk)$/i`. -/
def SUSPICIOUS_TLDS : List String :=
  ["xyz", "top", "club", "work", "click", "link", "gq", "ml", "cf", "tk"]

/-- Models the suspicious-TLD regex on the (already lowercased) domain. -/
def hasSuspiciousTld (domain : String) : Bool :=
  SUSPICIOUS_TLDS.any (fun tld => ("." ++ tld).data.isSuffixOf domain.data)

/-- The alternatives of the typosquatting regex
`/paypa[l1]|amaz[o0]n|g[o0]{2}gle|micr[o0]s[o0]ft|app[l1]e/i`, expanded. -/
def TYPOSQUAT_ALTERNATIVES : List String :=
  [ "paypal", "paypa1"
  , "amazon", "amaz0n"
  , "google", "go0gle", "g0ogle", "g00gle"
  , "microsoft", "micr0soft", "micros0ft", "micr0s0ft"
  , "apple", "app1e" ]

/-- Models the typosquatting regex on the (already lowercased) domain. -/
def hasTyposquat (domain : String) : Bool :=
  TYPOSQUAT_ALTERNATIVES.any (fun alt => jsIncludes domain alt)

/-- `detectSuspiciousDomain`: tests the four `SUSPICIOUS_DOMAIN_PATTERNS`
against the extracted domain; the loop pushes one indicator and breaks at the
first matching pattern. -/
def detectSuspiciousDomain (sender : String) : List String :=
  let domain := extractDomain sender
  if hasFourDigitRun domain.data || hasDoubleHyphen domain.data
      || hasSuspiciousTld domain || hasTyposquat domain then
    ["Suspicious domain pattern detected: " ++ domain]
  else
    []

/-- `detectMismatchedLinks`: tests the four call-to-action regexes
(`/click\s+here/i` etc.) against the content; pushes one indicator and breaks
at the first match. -/
def detectMismatchedLinks (content : String) : List String :=
  let lower := jsToLower content
  if hasPhraseWithSpace "click" "here" lower
      || hasPhraseWithSpace "verify" "now" lower
      || hasPhraseWithSpace "login" "here" lower
      || hasPhraseWithSpace "update" "account" lower then
    ["Contains suspicious call-to-action links"]
  else
    []

/-- `detectScam` from `src/lib/scamDetector.ts`: sums the capped detector
contributions, clamps the total at 100, and derives verdict and
recommendation tier. -/
def detectScam (content sender : String) : ScamAnalysis :=
  let urgencyIndicators := detectUrgencyLanguage content
  let sensitiveIndicators := detectSensitiveInfoRequests content
  let domainIndicators := detectSuspiciousDomain sender
  let linkIndicators := detectMismatchedLinks content
  let score1 : Nat :=
    if urgencyIndicators.length > 0 then min (urgencyIndicators.length * 15) 40 else 0
  let score2 : Nat :=
    score1 + (if sensitiveIndicators.length > 0 then min (sensitiveIndicators.length * 20) 50 else 0)
  let score3 : Nat := score2 + (if domainIndicators.length > 0 then 25 else 0)
  let score4 : Nat := score3 + (if linkIndicators.length > 0 then 15 else 0)
  let riskScore : Nat := min score4 100
  let indicators : List String :=
    (if urgencyIndicators.length > 0 then
      ["Urgency language detected: " ++ String.intercalate ", " (urgencyIndicators.take 3)]
     else []) ++
    (if sensitiveIndicators.length > 0 then
      ["Requests for sensitive information: " ++ String.intercalate ", " (sensitiveIndicators.take 3)]
     else []) ++
    domainIndicators ++ linkIndicators
  let recommendation : String :=
    if riskScore ≥ 70 then
      "HIGH RISK: This appears to be a scam. Do not click any links or provide personal information."
    else if riskScore ≥ 40 then
      "MEDIUM RISK: Exercise caution. Verify the sender through official channels before taking action."
    else if riskScore ≥ 20 then
      "LOW RISK: Some suspicious elements detected. Review carefully before responding."
    else
      "This message appears to be legitimate."
  { is_scam := decide (riskScore ≥ 70)
  , risk_score := riskScore
  , scam_indicators := indicators
  , recommendation := recommendation }

-- ===========================================================================
-- Theorems about the scam detector (claims C1, C2)
-- ===========================================================================

/-- C1 (counterexample): for the spec's scenario — content
"URGENT: verify your password immediately or account suspended" from
"security@paypa1-verify.xyz" — `detectScam` does NOT return a risk score ≥ 70
with `is_scam = true` and a "HIGH RISK" recommendation: only one urgency
pattern ("account suspended", 15 points) and one sensitive-info pattern
("password", 20 points) match, plus the suspicious `.xyz` domain (25 points),
for a total of 60. -/
theorem detectScam_spec_scenario_counterexample :
    ¬ (((detectScam "URGENT: verify your password immediately or account suspended"
          "security@paypa1-verify.xyz").risk_score ≥ 70)
        ∧ (detectScam "URGENT: verify your password immediately or account suspended"
            "security@paypa1-verify.xyz").is_scam = true
        ∧ jsIncludes (detectScam "URGENT: verify your password immediately or account suspended"
            "security@paypa1-verify.xyz").recommendation "HIGH RISK" = true) := by
  decide

/-- C1 (amended): on the spec's scenario input, `detectScam` returns risk
score 60 (so ≥ 40 but < 70), `is_scam = false`, and a recommendation
containing "MEDIUM RISK". -/
theorem detectScam_spec_scenario_amended :
    (detectScam "URGENT: verify your password immediately or account suspended"
        "security@paypa1-verify.xyz").risk_score = 60
      ∧ (detectScam "URGENT: verify your password immediately or account suspended"
          "security@paypa1-verify.xyz").is_scam = false
      ∧ jsIncludes (detectScam "URGENT: verify your password immediately or account suspended"
          "security@paypa1-verify.xyz").recommendation "MEDIUM RISK" = true := by
  refine ⟨by decide, by decide, by decide⟩

/-- C2: for every content string and every sender string, the risk score
returned by `detectScam` lies in [0, 100]: each detector's contribution is
capped before summation and the total is clamped with `min · 100`. -/
theorem detectScam_score_bounded (content sender : String) :
    0 ≤ (detectScam content sender).risk_score
      ∧ (detectScam content sender).risk_score ≤ 100 :=
  ⟨Nat.zero_le _, Nat.min_le_right _ _⟩

/-- C2 (witness-style sanity check on a concrete input): the bound holds on
the spec's own scenario. -/
theorem detectScam_score_bounded_example :
    0 ≤ (detectScam "URGENT: verify your password immediately or account suspended"
          "security@paypa1-verify.xyz").risk_score
      ∧ (detectScam "URGENT: verify your password immediately or account suspended"
          "security@paypa1-verify.xyz").risk_score ≤ 100 :=
  detectScam_score_bounded _ _

-- ===========================================================================
-- src/lib/ocr.ts (part 2): validateDocumentAnalysis
-- ===========================================================================

/-- A parsed JSON-like value, as produced by `JSON.parse` on the completion
service's response. -/
inductive JVal where
  | null : JVal
  | bool (b : Bool) : JVal
  | num (q : Rat) : JVal
  | str (s : String) : JVal
  | arr (xs : List JVal) : JVal
  | obj (fields : List (String × JVal)) : JVal

/-- JS property access `data.k` on a parsed object: the value bound to key
`k`, or `none` for JS `undefined` when the key is absent. -/
def jget (fields : List (String × JVal)) (k : String) : Option JVal :=
  fields.lookup k

/-- `VALID_CATEGORIES` from `src/lib/ocr.ts`. -/
def VALID_CATEGORIES : List String :=
  ["Finance", "Education", "Shopping", "Health", "Career", "Other"]

/-- Parses a run of decimal digit characters into a number; `none` when the
list is empty or holds a non-digit. -/
def parseDigits : List Char → Option Nat
  | [] => none
  | l => l.foldl (fun acc c => match acc with
      | none => none
      | some n => if c.isDigit then some (n * 10 + (c.toNat - 48)) else none)
      (some 0)

/-- Number of days in a month of a given year (proleptic Gregorian). -/
def daysInMonth (y m : Nat) : Nat :=
  if m = 2 then
    if y % 4 = 0 && (y % 100 ≠ 0 || y % 400 = 0) then 29 else 28
  else if m = 4 || m = 6 || m = 9 || m = 11 then 30
  else 31

/-- Splits a character list at every occurrence of the separator. -/
def splitOnChar (sep : Char) : List Char → List Char → List (List Char)
  | [], acc => [acc.reverse]
  | c :: rest, acc =>
    if c = sep then acc.reverse :: splitOnChar sep rest []
    else splitOnChar sep rest (c :: acc)

/-- Models the JS `new Date(s)` constructor restricted to ISO `YYYY-MM-DD`
calendar-date strings — the only date format the pipeline's prompts emit.
Returns the (year, month, day) components, or `none` for an invalid date
(JS `NaN` time value). Local-timezone effects of `getFullYear` are not
modelled: the year of the parsed date is its calendar year. -/
def jsParseDate (s : String) : Option (Nat × Nat × Nat) :=
  match splitOnChar '-' s.data [] with
  | [ys, ms, ds] =>
    if ys.length = 4 && ms.length = 2 && ds.length = 2 then
      match parseDigits ys, parseDigits ms, parseDigits ds with
      | some y, some m, some d =>
        if 1 ≤ m && m ≤ 12 && 1 ≤ d && d ≤ daysInMonth y m then
          some (y, m, d)
        else none
      | _, _, _ => none
    else none
  | _ => none

/-- Models JS `String.prototype.trim` (ASCII whitespace). -/
def jsTrim (s : String) : String :=
  String.mk (((s.data.dropWhile isJsSpace).reverse.dropWhile isJsSpace).reverse)

/-- `DocumentAnalysis` from `src/types` — the canonical validated analysis.
The `category` travels as the raw string of the closed `ItemCategory` union. -/
structure DocumentAnalysis where
  title : String
  amount : Option Rat
  due_date : Option String
  category : String
  summary_bullets : List String
  is_scam : Bool
deriving DecidableEq

/-- The `amount` rule of `validateDocumentAnalysis`: present non-null
non-numbers are coerced to null; only numbers survive. -/
def coerceAmount (fields : List (String × JVal)) : Option Rat :=
  match jget fields "amount" with
  | some (.num q) => some q
  | _ => none

/-- The year-window check on a due-date string: strings that do not parse as
a date, or whose year falls outside [2000, 2100], give null; otherwise the
string is kept. -/
def dueDateFromString (s : String) : Option String :=
  match jsParseDate s with
  | none => none
  | some (y, _, _) => if y < 2000 || y > 2100 then none else some s

/-- The `due_date` rule of `validateDocumentAnalysis`: non-strings are
coerced to null, strings go through the year-window check. -/
def coerceDueDate (fields : List (String × JVal)) : Option String :=
  match jget fields "due_date" with
  | some (.str s) => dueDateFromString s
  | _ => none

/-- The `category` rule of `validateDocumentAnalysis`: anything that is not
one of the six valid category strings becomes "Other". -/
def coerceCategory (fields : List (String × JVal)) : String :=
  match jget fields "category" with
  | some (.str c) => if VALID_CATEGORIES.contains c then c else "Other"
  | _ => "Other"

/-- The `summary_bullets` rule of `validateDocumentAnalysis`: non-arrays give
an empty list, arrays are filtered to string entries; an empty result is
replaced by the fallback bullet. -/
def coerceBullets (fields : List (String × JVal)) : List String :=
  let filtered : List String :=
    match jget fields "summary_bullets" with
    | some (.arr xs) => xs.filterMap (fun v => match v with | .str s => some s | _ => none)
    | _ => []
  if filtered.isEmpty then ["Document scanned successfully"] else filtered

/-- The `is_scam` rule of `validateDocumentAnalysis`: booleans pass through,
everything else defaults to `false`. -/
def coerceIsScam (fields : List (String × JVal)) : Bool :=
  match jget fields "is_scam" with
  | some (.bool b) => b
  | _ => false

/-- Body of `validateDocumentAnalysis` on a payload object: hard error when
the `title` is missing, non-string, or empty after trimming; every other
field is coerced independently. -/
def validateFields (fields : List (String × JVal)) : Except String DocumentAnalysis :=
  match jget fields "title" with
  | some (.str t) =>
    if jsTrim t = "" then
      .error "Invalid AI response: title must be a non-empty string"
    else
      .ok { title := t
          , amount := coerceAmount fields
          , due_date := coerceDueDate fields
          , category := coerceCategory fields
          , summary_bullets := coerceBullets fields
          , is_scam := coerceIsScam fields }
  | _ => .error "Invalid AI response: title must be a non-empty string"

/-- `validateDocumentAnalysis` from `src/lib/ocr.ts`: rejects non-objects
outright, otherwise validates the object's fields. (A JS array passes the
`typeof === 'object'` guard but has none of the named properties, so it
fails at the title check.) -/
def validateDocumentAnalysis (response : JVal) : Except String DocumentAnalysis :=
  match response with
  | .null | .bool _ | .num _ | .str _ =>
    .error "Invalid AI response: not an object"
  | .arr _ =>
    .error "Invalid AI response: title must be a non-empty string"
  | .obj fields => validateFields fields

/-- The title is missing, not a string, or empty after trimming. -/
def titleBad (fields : List (String × JVal)) : Bool :=
  match jget fields "title" with
  | some (.str t) => jsTrim t = ""
  | _ => true

/-- The amount is missing or not a number (so the validator nulls it). -/
def amountBad (fields : List (String × JVal)) : Bool :=
  match jget fields "amount" with
  | some (.num _) => false
  | _ => true

/-- The due date is missing or not a string (so the validator nulls it). -/
def dueDateBad (fields : List (String × JVal)) : Bool :=
  match jget fields "due_date" with
  | some (.str _) => false
  | _ => true

/-- The category is missing, not a string, or not a valid category string. -/
def categoryBad (fields : List (String × JVal)) : Bool :=
  match jget fields "category" with
  | some (.str c) => !(VALID_CATEGORIES.contains c)
  | _ => true

/-- The summary bullets are missing, not an array, or contain no strings. -/
def bulletsBad (fields : List (String × JVal)) : Bool :=
  match jget fields "summary_bullets" with
  | some (.arr xs) =>
    (xs.filterMap (fun v => match v with | .str s => some s | _ => none)).isEmpty
  | _ => true

-- Helper lemmas about the validator --------------------------------------

lemma coerceAmount_of_bad {fields : List (String × JVal)}
    (h : amountBad fields = true) : coerceAmount fields = none := by
  unfold amountBad at h
  unfold coerceAmount
  rcases hf : jget fields "amount" with _ | v
  · rfl
  · cases v <;> simp_all

lemma coerceDueDate_of_bad {fields : List (String × JVal)}
    (h : dueDateBad fields = true) : coerceDueDate fields = none := by
  unfold dueDateBad at h
  unfold coerceDueDate
  rcases hf : jget fields "due_date" with _ | v
  · rfl
  · cases v <;> simp_all

lemma coerceCategory_of_bad {fields : List (String × JVal)}
    (h : categoryBad fields = true) : coerceCategory fields = "Other" := by
  unfold categoryBad at h
  unfold coerceCategory
  rcases hf : jget fields "category" with _ | v
  · rfl
  · cases v <;> simp_all

lemma coerceBullets_of_bad {fields : List (String × JVal)}
    (h : bulletsBad fields = true) :
    coerceBullets fields = ["Document scanned successfully"] := by
  unfold bulletsBad at h
  unfold coerceBullets
  rcases hf : jget fields "summary_bullets" with _ | v
  · rfl
  · cases v <;> simp_all

lemma validateDocumentAnalysis_ok_inv {fields : List (String × JVal)}
    {a : DocumentAnalysis}
    (hok : validateDocumentAnalysis (.obj fields) = .ok a) :
    a.amount = coerceAmount fields ∧ a.due_date = coerceDueDate fields
      ∧ a.category = coerceCategory fields
      ∧ a.summary_bullets = coerceBullets fields := by
  have hok' : validateFields fields = .ok a := hok
  unfold validateFields at hok'
  rcases hf : jget fields "title" with _ | v
  · rw [hf] at hok'; exact absurd hok' (by simp)
  · cases v <;> rw [hf] at hok'
    case str t =>
      by_cases ht : jsTrim t = "" <;> simp [ht] at hok'
      subst hok'
      exact ⟨rfl, rfl, rfl, rfl⟩
    all_goals exact absurd hok' (by simp)

-- ===========================================================================
-- Theorems about the validator (claims C3, C4)
-- ===========================================================================

/-- C3: on a parsed payload object, `validateDocumentAnalysis` raises an
error if and only if the title is missing, not a string, or empty after
trimming; and whenever it succeeds, a missing or ill-typed `amount`,
`due_date`, `category`, or `summary_bullets` is coerced to its default
(null amount, null due date, category "Other", a single placeholder bullet). -/
theorem validateDocumentAnalysis_error_iff_title (fields : List (String × JVal)) :
    ((∃ e, validateDocumentAnalysis (.obj fields) = .error e) ↔ titleBad fields = true)
      ∧ ∀ a : DocumentAnalysis, validateDocumentAnalysis (.obj fields) = .ok a →
          (amountBad fields = true → a.amount = none)
          ∧ (dueDateBad fields = true → a.due_date = none)
          ∧ (categoryBad fields = true → a.category = "Other")
          ∧ (bulletsBad fields = true →
              a.summary_bullets = ["Document scanned successfully"]) := by
  constructor
  · have hv : validateDocumentAnalysis (.obj fields) = validateFields fields := rfl
    rw [hv]
    unfold validateFields titleBad
    rcases hf : jget fields "title" with _ | v
    · simp
    · cases v
      case str t =>
        by_cases ht : jsTrim t = "" <;> simp [ht]
      all_goals simp
  · intro a hok
    obtain ⟨ham, hdd, hcat, hbul⟩ := validateDocumentAnalysis_ok_inv hok
    exact ⟨fun h => ham.trans (coerceAmount_of_bad h),
           fun h => hdd.trans (coerceDueDate_of_bad h),
           fun h => hcat.trans (coerceCategory_of_bad h),
           fun h => hbul.trans (coerceBullets_of_bad h)⟩

/-- A concrete payload whose title is fine but whose other fields are all
ill-typed. -/
def illTypedPayload : List (String × JVal) :=
  [ ("title", .str "Test Doc")
  , ("amount", .str "one hundred")
  , ("due_date", .num 5)
  , ("category", .str "Bogus")
  , ("summary_bullets", .num 1)
  , ("is_scam", .str "yes") ]

/-- The analysis the validator produces for `illTypedPayload`. -/
def illTypedPayloadResult : DocumentAnalysis :=
  { title := "Test Doc", amount := none, due_date := none, category := "Other"
  , summary_bullets := ["Document scanned successfully"], is_scam := false }

/-- C3 witness: on `illTypedPayload` the validator succeeds and coerces every
ill-typed field to its default. -/
theorem validateDocumentAnalysis_error_iff_title_witness :
    validateDocumentAnalysis (.obj illTypedPayload) = .ok illTypedPayloadResult
      ∧ illTypedPayloadResult.amount = none
      ∧ illTypedPayloadResult.due_date = none
      ∧ illTypedPayloadResult.category = "Other"
      ∧ illTypedPayloadResult.summary_bullets = ["Document scanned successfully"] :=
  ⟨rfl,
   ((validateDocumentAnalysis_error_iff_title illTypedPayload).2
      illTypedPayloadResult rfl).1 (by decide),
   (((validateDocumentAnalysis_error_iff_title illTypedPayload).2
      illTypedPayloadResult rfl).2).1 (by decide),
   ((((validateDocumentAnalysis_error_iff_title illTypedPayload).2
      illTypedPayloadResult rfl).2).2).1 (by decide),
   ((((validateDocumentAnalysis_error_iff_title illTypedPayload).2
      illTypedPayloadResult rfl).2).2).2 (by decide)⟩

/-- C4: whenever the payload's `due_date` string parses as a calendar date,
a year of 1999 or 2101 is coerced to null while a year of 2000 or 2100 is
retained in the validator's output. -/
theorem validateDocumentAnalysis_due_date_year_bounds
    (fields : List (String × JVal)) (s : String) (y m d : Nat)
    (a : DocumentAnalysis)
    (hfield : jget fields "due_date" = some (.str s))
    (hparse : jsParseDate s = some (y, m, d))
    (hok : validateDocumentAnalysis (.obj fields) = .ok a) :
    ((y = 1999 ∨ y = 2101) → a.due_date = none)
      ∧ ((y = 2000 ∨ y = 2100) → a.due_date = some s) := by
  obtain ⟨_, hdd, _, _⟩ := validateDocumentAnalysis_ok_inv hok
  have hcd : coerceDueDate fields = dueDateFromString s := by
    unfold coerceDueDate; rw [hfield]
  have hds : dueDateFromString s
      = if y < 2000 || y > 2100 then none else some s := by
    unfold dueDateFromString; rw [hparse]
  rw [hcd, hds] at hdd
  constructor
  · rintro (rfl | rfl) <;> simpa using hdd
  · rintro (rfl | rfl) <;> simpa using hdd

/-- A payload whose due date parses with year 1999. -/
def year1999Payload : List (String × JVal) :=
  [("title", .str "Tax Notice"), ("due_date", .str "1999-06-15")]

/-- A payload whose due date parses with year 2000. -/
def year2000Payload : List (String × JVal) :=
  [("title", .str "Tax Notice"), ("due_date", .str "2000-06-15")]

/-- Validator output for `year1999Payload`: the due date is nulled. -/
def year1999Result : DocumentAnalysis :=
  { title := "Tax Notice", amount := none, due_date := none, category := "Other"
  , summary_bullets := ["Document scanned successfully"], is_scam := false }

/-- Validator output for `year2000Payload`: the due date is kept. -/
def year2000Result : DocumentAnalysis :=
  { title := "Tax Notice", amount := none, due_date := some "2000-06-15"
  , category := "Other"
  , summary_bullets := ["Document scanned successfully"], is_scam := false }

/-- C4 witness: year 1999 is nulled and year 2000 is kept on concrete
payloads. -/
theorem validateDocumentAnalysis_due_date_year_bounds_witness :
    year1999Result.due_date = none
      ∧ year2000Result.due_date = some "2000-06-15" :=
  ⟨(validateDocumentAnalysis_due_date_year_bounds year1999Payload
      "1999-06-15" 1999 6 15 year1999Result rfl rfl rfl).1 (Or.inl rfl),
   (validateDocumentAnalysis_due_date_year_bounds year2000Payload
      "2000-06-15" 2000 6 15 year2000Result rfl rfl rfl).2 (Or.inl rfl)⟩

-- ===========================================================================
-- src/unnamed/part_008: transactional email classifier
-- ===========================================================================

/-- `EmailContent` from the Gmail module (`src/unnamed/part_008`); the
attachment list is omitted as no claim concerns it. -/
structure EmailContent where
  id : String
  sender : String
  toAddr : String
  subject : String
  body : String
  date : String

/-- `TRANSACTIONAL_KEYWORDS` from `src/unnamed/part_008`. -/
def TRANSACTIONAL_KEYWORDS : List String :=
  [ "invoice", "payment", "bill", "receipt", "transaction", "charge"
  , "amount due", "balance", "statement", "pay now", "payment due"
  , "order confirmation", "order #", "shipping", "delivery", "tracking"
  , "account statement", "subscription", "renewal", "expiring", "due date"
  , "bank", "credit card", "transfer", "deposit", "tuition", "fee"
  , "warranty", "appointment", "booking", "reservation" ]

/-- `PROMOTIONAL_KEYWORDS` from `src/unnamed/part_008`. -/
def PROMOTIONAL_KEYWORDS : List String :=
  [ "unsubscribe", "newsletter", "promotion", "sale", "discount"
  , "offer", "deal", "limited time", "exclusive", "free shipping"
  , "shop now", "buy now", "save", "% off", "coupon" ]

/-- A digit or a comma — the `[\d,]` character class of the amount regex. -/
def isDigitComma (c : Char) : Bool := c.isDigit || c = ','

/-- Matcher for the third alternative of the amount regex at the head of the
list: a digit/comma run, an optional decimal part, optional whitespace, then
a currency code (the content is already lowercased). -/
def currencyTailAt (l : List Char) : Bool :=
  match l with
  | c :: rest =>
    isDigitComma c &&
      (let r1 := rest.dropWhile isDigitComma
       let r2 := match r1 with
         | '.' :: r => r.dropWhile Char.isDigit
         | _ => r1
       let r3 := r2.dropWhile isJsSpace
       ["usd", "inr", "eur", "gbp"].any (fun code => code.data.isPrefixOf r3))
  | [] => false

/-- Matcher for one alternative of the amount regex at the head of the list:
a currency sign followed by at least one digit or comma. -/
def currencySignAt (sign : Char) (l : List Char) : Bool :=
  match l with
  | c :: d :: _ => c = sign && isDigitComma d
  | _ => false

/-- Models the amount regex of `isTransactionalEmail` on the lowercased
content: a `$` or `₹` amount, or a number followed by a currency code. -/
def hasAmountPattern (content : String) : Bool :=
  scanSuffixes
    (fun l => currencySignAt '$' l || currencySignAt '₹' l || currencyTailAt l)
    content.data

/-- A date separator — the `[\/\-]` class of the date regex. -/
def isDateSep (c : Char) : Bool := c = '/' || c = '-'

/-- One or two digits at the head of the list followed by a continuation
(models the backtracking of a greedy `\d{1,2}`). -/
def digits1or2Then (k : List Char → Bool) : List Char → Bool
  | [] => false
  | a :: rest =>
    a.isDigit &&
      ((match rest with
        | b :: rest2 => b.isDigit && k rest2
        | [] => false)
       || k rest)

/-- At least two digits at the head of the list (existence form of the
trailing `\d{2,4}` of the date regex). -/
def atLeast2Digits : List Char → Bool
  | a :: b :: _ => a.isDigit && b.isDigit
  | _ => false

/-- Matcher for the numeric-date alternative `\d{1,2}[\/\-]\d{1,2}[\/\-]\d{2,4}`
at the head of the list. -/
def dateNumericAt (l : List Char) : Bool :=
  digits1or2Then
    (fun r1 => match r1 with
      | s1 :: r2 =>
        isDateSep s1 &&
          digits1or2Then
            (fun r3 => match r3 with
              | s2 :: r4 => isDateSep s2 && atLeast2Digits r4
              | [] => false)
            r2
      | [] => false)
    l

/-- Matcher for the `due\s+(by|on|date)` alternative at the head of the list
(content already lowercased). -/
def dueKeywordAt (l : List Char) : Bool :=
  "due".data.isPrefixOf l &&
    (let r := l.drop 3
     let r1 := r.dropWhile isJsSpace
     decide (r1.length < r.length) &&
       ("by".data.isPrefixOf r1 || "on".data.isPrefixOf r1
         || "date".data.isPrefixOf r1))

/-- Models the date regex of `isTransactionalEmail` on the lowercased
content. -/
def hasDatePattern (content : String) : Bool :=
  scanSuffixes (fun l => dateNumericAt l || dueKeywordAt l) content.data

/-- Matcher for `w\s*#?\s*\d+` at the head of the list (content already
lowercased). -/
def orderNumberAt (w : String) (l : List Char) : Bool :=
  w.data.isPrefixOf l &&
    (let r := (l.drop w.data.length).dropWhile isJsSpace
     let r2 := match r with
       | '#' :: t => t.dropWhile isJsSpace
       | _ => r
     match r2 with
     | c :: _ => c.isDigit
     | [] => false)

/-- Models the order/invoice/confirmation-number regex of
`isTransactionalEmail` on the lowercased content. -/
def hasOrderNumberPattern (content : String) : Bool :=
  scanSuffixes
    (fun l => orderNumberAt "order" l || orderNumberAt "invoice" l
      || orderNumberAt "confirmation" l)
    content.data

/-- The promotional score of `isTransactionalEmail`: the number of
promotional keywords contained in the lowercased subject+body. -/
def promotionalScoreOf (email : EmailContent) : Nat :=
  let content := jsToLower (email.subject ++ " " ++ email.body)
  PROMOTIONAL_KEYWORDS.foldl
    (fun score keyword =>
      if jsIncludes content (jsToLower keyword) then score + 1 else score)
    0

/-- `isTransactionalEmail` from `src/unnamed/part_008`: promotional score ≥ 3
short-circuits to `false`; otherwise keyword matches plus the amount, date
and order-number patterns must reach a total of 3. -/
def isTransactionalEmail (email : EmailContent) : Bool :=
  let content := jsToLower (email.subject ++ " " ++ email.body)
  let promotionalScore := PROMOTIONAL_KEYWORDS.foldl
    (fun score keyword =>
      if jsIncludes content (jsToLower keyword) then score + 1 else score)
    0
  if promotionalScore ≥ 3 then false
  else
    let transactionalScore := TRANSACTIONAL_KEYWORDS.foldl
      (fun score keyword =>
        if jsIncludes content (jsToLower keyword) then score + 1 else score)
      0
    let hasAmount := hasAmountPattern content
    let hasDate := hasDatePattern content
    let hasOrderNumber := hasOrderNumberPattern content
    let score := transactionalScore + (if hasAmount then 2 else 0)
      + (if hasDate then 2 else 0) + (if hasOrderNumber then 3 else 0)
    decide (score ≥ 3)

-- ===========================================================================
-- Theorem about the email classifier (claim C5)
-- ===========================================================================

/-- C5: whenever the promotional-keyword count of the lowercased
subject+body reaches 3, `isTransactionalEmail` returns `false`, regardless
of any transactional keywords, amounts, dates, or order numbers present. -/
theorem isTransactionalEmail_promotional_shortcircuit (email : EmailContent)
    (h : promotionalScoreOf email ≥ 3) :
    isTransactionalEmail email = false := by
  unfold promotionalScoreOf at h
  simp only [isTransactionalEmail]
  simp only at h
  rw [if_pos h]

/-- A promotional email that nevertheless carries every transactional
signal: an invoice number, a currency amount, and a due date. -/
def promoHeavyEmail : EmailContent :=
  { id := "m1"
  , sender := "deals@shop.example"
  , toAddr := "user@example.com"
  , subject := "Big sale this week"
  , body := "Huge discount storewide. Invoice #123 payment due by 01/15/2026, amount $150.00. Unsubscribe anytime."
  , date := "2026-01-01" }

/-- C5 witness: `promoHeavyEmail` has promotional score ≥ 3 (sale, discount,
unsubscribe) and is classified as not transactional despite its invoice
number, amount, and due date. -/
theorem isTransactionalEmail_promotional_shortcircuit_witness :
    promotionalScoreOf promoHeavyEmail ≥ 3
      ∧ isTransactionalEmail promoHeavyEmail = false :=
  ⟨by decide,
   isTransactionalEmail_promotional_shortcircuit promoHeavyEmail (by decide)⟩

-- ===========================================================================
-- src/stores/itemsStore.ts: determineFolderName (folder router)
-- ===========================================================================

/-- `documentFolderMap` from `determineFolderName` in
`src/stores/itemsStore.ts`, in `Object.entries` (insertion) order. -/
def documentFolderMap : List (String × String) :=
  [ ("driving licence", "Driving Licence")
  , ("driving license", "Driving Licence")
  , ("learner\x27s licence", "Driving Licence")
  , ("pan card", "PAN Card")
  , ("permanent account", "PAN Card")
  , ("aadhaar", "Aadhaar Card")
  , ("aadhar", "Aadhaar Card")
  , ("passport", "Passport")
  , ("voter id", "Voter ID")
  , ("election", "Voter ID")
  , ("vehicle rc", "Vehicle RC")
  , ("registration certificate", "Vehicle RC")
  , ("credit card", "Credit Cards")
  , ("debit card", "Bank Cards")
  , ("bank statement", "Bank Statements")
  , ("electricity bill", "Utility Bills")
  , ("water bill", "Utility Bills")
  , ("gas bill", "Utility Bills")
  , ("phone bill", "Utility Bills")
  , ("mobile bill", "Utility Bills")
  , ("internet bill", "Utility Bills")
  , ("insurance", "Insurance")
  , ("policy", "Insurance")
  , ("medical", "Medical Records")
  , ("hospital", "Medical Records")
  , ("prescription", "Medical Records")
  , ("invoice", "Invoices & Receipts")
  , ("receipt", "Invoices & Receipts")
  , ("certificate", "Certificates")
  , ("marksheet", "Education")
  , ("degree", "Education")
  , ("salary slip", "Salary & Income")
  , ("payslip", "Salary & Income")
  , ("tax", "Tax Documents")
  , ("itr", "Tax Documents")
  , ("form 16", "Tax Documents") ]

/-- `categoryFolderMap` from `determineFolderName`: categories travel as the
raw strings of the `ItemCategory` union. -/
def categoryFolderMap : List (String × String) :=
  [ ("Finance", "Finance Documents")
  , ("Health", "Medical Records")
  , ("Shopping", "Shopping & Orders")
  , ("Education", "Education")
  , ("Career", "Career & Work")
  , ("Other", "Other Documents") ]

/-- Finds the first keyword of the ordered table contained in the lowered
title. -/
def firstKeywordMatch (titleLower : String) : List (String × String) → Option String
  | [] => none
  | (keyword, folderName) :: rest =>
    if jsIncludes titleLower keyword then some folderName
    else firstKeywordMatch titleLower rest

/-- `determineFolderName` from `src/stores/itemsStore.ts`: first keyword
match against the lowercased title wins; otherwise the category table, with
"Other Documents" as the final fallback (the `|| 'Other Documents'`). -/
def determineFolderName (title : String) (category : String) : String :=
  let titleLower := jsToLower title
  match firstKeywordMatch titleLower documentFolderMap with
  | some folderName => folderName
  | none =>
    match categoryFolderMap.lookup category with
    | some folderName => folderName
    | none => "Other Documents"

-- ===========================================================================
-- Theorems about the folder router (claim C8)
-- ===========================================================================

/-- C8 (counterexample): the title "Electric Bill" does NOT resolve to
"Utility Bills" — no keyword of the table (in particular not
"electricity bill") occurs in "electric bill", so the category fallback
"Finance Documents" is returned. -/
theorem determineFolderName_electric_bill_counterexample :
    ¬ determineFolderName "Electric Bill" "Finance" = "Utility Bills" := by
  decide

/-- C8 (amended): "Electric Bill"/Finance falls back to the category folder
"Finance Documents"; the keyword route to "Utility Bills" fires for the
table's exact keyword, e.g. the title "Electricity Bill". -/
theorem determineFolderName_electric_bill_amended :
    determineFolderName "Electric Bill" "Finance" = "Finance Documents"
      ∧ determineFolderName "Electricity Bill" "Finance" = "Utility Bills" := by
  exact ⟨by decide, by decide⟩

-- ===========================================================================
-- src/stores/guardianStore.ts and src/stores/itemsStore.ts: state model
-- ===========================================================================

/-- `Item` from `src/types`, restricted to the fields the scheduler and the
mark-paid flow read. The ISO due-date string is abstracted to its parsed
epoch-millisecond timestamp (`new Date(item.due_date).getTime()`). -/
structure Item where
  id : String
  user_id : String
  title : String
  category : String
  due_date : Option Int
  status : String
deriving DecidableEq

/-- `GuardianAlert` from `src/types`; the trigger date is the due date's
epoch-millisecond timestamp, alert ids are allocated from a counter. -/
structure GuardianAlert where
  id : Nat
  user_id : String
  item_id : String
  alert_type : String
  trigger_date : Int
  is_dismissed : Bool
  is_sent : Bool
deriving DecidableEq

/-- `NotificationSettings` from `src/types`. -/
structure NotificationSettings where
  push_notifications_enabled : Bool
  reminder_7day_enabled : Bool
  reminder_1day_enabled : Bool
deriving DecidableEq

/-- Combined store/backend state: the items and alerts visible to both the
zustand stores and the storage layer (the stores re-fetch after every write,
so the two stay in sync), plus the id counter for newly created alerts. -/
structure StoreState where
  items : List Item
  upcomingItems : List Item
  alerts : List GuardianAlert
  nextId : Nat
deriving DecidableEq

/-- Ceiling division of integers (positive divisor), used to model JS
`Math.ceil(x / d)` on exact values. -/
def ceilDiv (n d : Int) : Int := -((-n).ediv d)

/-- `daysUntilDue` as computed by `checkDeadlines`:
`Math.ceil((dueDate - now) / (1000*60*60*24))`. -/
def daysUntilDue (due now : Int) : Int := ceilDiv (due - now) 86400000

/-- The alert-kind branch of `checkDeadlines`: overdue always, 1-day and
7-day kinds gated by their toggles; farther than 7 days out, nothing. -/
def alertTypeFor (settings : NotificationSettings) (days : Int) : Option String :=
  if days < 0 then some "overdue"
  else if days ≤ 1 && settings.reminder_1day_enabled then some "deadline_1day"
  else if days ≤ 7 && days > 1 && settings.reminder_7day_enabled then
    some "deadline_7day"
  else none

/-- One loop iteration of `checkDeadlines` for a single item, against the
alert snapshot taken before the loop: items without a due date or already
paid/archived are skipped, as are items that already have a non-dismissed
alert; otherwise the alert kind is derived from `daysUntilDue`. -/
def eligibleAlert (snapshot : List GuardianAlert) (now : Int)
    (settings : NotificationSettings) (it : Item) : Option String :=
  match it.due_date with
  | none => none
  | some due =>
    if it.status = "paid" || it.status = "archived" then none
    else if (snapshot.find? (fun a => a.item_id == it.id && !a.is_dismissed)).isSome then
      none
    else alertTypeFor settings (daysUntilDue due now)

/-- The alert record `createAlert` persists for an item. -/
def mkAlert (alertId : Nat) (userId : String) (it : Item) (ty : String) :
    GuardianAlert :=
  { id := alertId
  , user_id := userId
  , item_id := it.id
  , alert_type := ty
  , trigger_date := it.due_date.getD 0
  , is_dismissed := false
  , is_sent := false }

/-- The alerts created by one `checkDeadlines` run over the item list, with
ids allocated sequentially; the existing-alert check always consults the
snapshot captured before the loop, as in the source. -/
def createdAlerts (snapshot : List GuardianAlert) (now : Int)
    (settings : NotificationSettings) (userId : String) (nid : Nat) :
    List Item → List GuardianAlert
  | [] => []
  | it :: rest =>
    match eligibleAlert snapshot now settings it with
    | none => createdAlerts snapshot now settings userId nid rest
    | some ty =>
      mkAlert nid userId it ty :: createdAlerts snapshot now settings userId (nid + 1) rest

/-- The default settings `checkDeadlines` uses when none are passed: all
notifications enabled. -/
def defaultSettings : NotificationSettings :=
  { push_notifications_enabled := true
  , reminder_7day_enabled := true
  , reminder_1day_enabled := true }

/-- `checkDeadlines` from `src/stores/guardianStore.ts`: no-op when push
notifications are disabled; otherwise scans all items and appends the newly
created alerts (the final `fetchAlerts` refresh re-reads exactly this
list). -/
def checkDeadlines (now : Int) (notificationSettings : Option NotificationSettings)
    (userId : String) (s : StoreState) : StoreState :=
  let settings := notificationSettings.getD defaultSettings
  if !settings.push_notifications_enabled then s
  else
    let created := createdAlerts s.alerts now settings userId s.nextId s.items
    { s with alerts := s.alerts ++ created, nextId := s.nextId + created.length }

/-- `dismissAlert` from `src/stores/guardianStore.ts` (storage effect):
marks the alert with the given id dismissed. -/
def dismissAlert (alerts : List GuardianAlert) (alertId : Nat) :
    List GuardianAlert :=
  alerts.map (fun a => if a.id = alertId then { a with is_dismissed := true } else a)

/-- `dismissAlertsForItem` from `src/stores/guardianStore.ts`: dismisses, one
by one, every currently non-dismissed alert of the item. -/
def dismissAlertsForItem (alerts : List GuardianAlert) (itemId : String) :
    List GuardianAlert :=
  let itemAlerts := alerts.filter (fun a => a.item_id == itemId && !a.is_dismissed)
  itemAlerts.foldl (fun acc al => dismissAlert acc al.id) alerts

/-- `markAsPaid` from `src/stores/itemsStore.ts`: sets the item's status to
"paid" (store and storage) and removes it from the upcoming list. No other
state is touched — in particular the guardian alerts are left as they are,
since neither `markAsPaid` nor any of its callers invokes
`dismissAlertsForItem`. -/
def markAsPaid (s : StoreState) (itemId : String) : StoreState :=
  { s with
    items := s.items.map (fun it =>
      if it.id = itemId then { it with status := "paid" } else it)
  , upcomingItems := s.upcomingItems.filter (fun it => it.id ≠ itemId) }

/-- The number of non-dismissed alerts a state holds for a given item. -/
def activeAlertCount (itemId : String) (alerts : List GuardianAlert) : Nat :=
  alerts.countP (fun a => a.item_id == itemId && !a.is_dismissed)

-- Counting lemmas ----------------------------------------------------------

lemma countP_and_le {α : Type} (p q : α → Bool) :
    ∀ l : List α,
      List.countP (fun x => p x && q x) l ≤ List.countP p l := by
  intro l
  induction l with
  | nil => exact Nat.le_refl 0
  | cons b t ih =>
    rw [List.countP_cons, List.countP_cons]
    cases hb : p b <;> cases hq : q b <;> simp [hb, hq] <;> omega

lemma countP_and_of_unique {α : Type} (l : List α) (p q : α → Bool) (a : α)
    (h1 : l.countP p = 1) (ha : a ∈ l) (hpa : p a = true) :
    l.countP (fun x => p x && q x) = if q a then 1 else 0 := by
  induction l with
  | nil => cases ha
  | cons b t ih =>
    rw [List.countP_cons] at h1
    rw [List.countP_cons]
    by_cases hb : p b = true
    · rw [if_pos hb] at h1
      have ht0 : t.countP p = 0 := by omega
      have htpq : t.countP (fun x => p x && q x) = 0 :=
        Nat.le_zero.mp (ht0 ▸ countP_and_le p q t)
      rcases List.mem_cons.mp ha with rfl | hat
      · rw [htpq]
        cases hq : q a <;> simp [hb, hq]
      · have := List.countP_pos_iff.mpr ⟨a, hat, hpa⟩
        omega
    · have hbf : p b = false := by
        cases hpb : p b
        · rfl
        · exact absurd hpb hb
      have hab : a ≠ b := by
        intro hE
        rw [hE, hbf] at hpa
        cases hpa
      have hat : a ∈ t := by
        rcases List.mem_cons.mp ha with rfl | hat
        · exact absurd rfl hab
        · assumption
      rw [if_neg hb] at h1
      have h1' : t.countP p = 1 := by omega
      have hpq : ((p b && q b) = true) = False := by simp [hbf]
      rw [if_neg (hpq ▸ id)]
      rw [ih h1' hat]
      omega

lemma find?_eq_none_of_countP_zero {α : Type} {l : List α} {p : α → Bool}
    (h : l.countP p = 0) : l.find? p = none := by
  rw [List.find?_eq_none]
  intro x hx
  exact (List.countP_eq_zero.mp h) x hx

-- Lemmas about one scheduler run --------------------------------------------

lemma activeAlertCount_createdAlerts (snapshot : List GuardianAlert)
    (now : Int) (settings : NotificationSettings) (uid : String) (j : String) :
    ∀ (items : List Item) (nid : Nat),
      activeAlertCount j (createdAlerts snapshot now settings uid nid items)
        = items.countP
            (fun x => x.id == j && (eligibleAlert snapshot now settings x).isSome) := by
  intro items
  induction items with
  | nil => intro nid; rfl
  | cons it rest ih =>
    intro nid
    unfold createdAlerts
    rcases he : eligibleAlert snapshot now settings it with _ | ty
    · rw [List.countP_cons]
      simp [he, ih]
    · unfold activeAlertCount at ih ⊢
      rw [List.countP_cons, List.countP_cons, ih (nid + 1)]
      simp [mkAlert, he]

lemma eligibleAlert_isSome_default (snapshot : List GuardianAlert)
    (now due : Int) (it : Item)
    (hdue : it.due_date = some due)
    (hp : it.status ≠ "paid") (har : it.status ≠ "archived")
    (hsnap : activeAlertCount it.id snapshot = 0)
    (hdays : daysUntilDue due now ≤ 7) :
    (eligibleAlert snapshot now defaultSettings it).isSome = true := by
  unfold eligibleAlert
  rw [hdue]
  have hfind : snapshot.find? (fun a => a.item_id == it.id && !a.is_dismissed) = none :=
    find?_eq_none_of_countP_zero hsnap
  simp only [hp, har, decide_eq_true_eq, hfind]
  unfold alertTypeFor defaultSettings
  simp only [decide_eq_true_eq]
  split_ifs with h0 h1 h2 <;> simp_all

lemma eligibleAlert_none_of_active (snapshot : List GuardianAlert)
    (now : Int) (settings : NotificationSettings) (it : Item)
    (h : 0 < activeAlertCount it.id snapshot) :
    eligibleAlert snapshot now settings it = none := by
  unfold eligibleAlert
  rcases hdue : it.due_date with _ | due
  · rfl
  · have hfind : (snapshot.find? (fun a => a.item_id == it.id && !a.is_dismissed)).isSome = true := by
      rw [List.find?_isSome]
      exact List.countP_pos_iff.mp h
    simp [hfind]

-- ===========================================================================
-- Theorems about the scheduler (claim C6)
-- ===========================================================================

/-- C6: running `checkDeadlines` twice (default settings: everything
enabled) on a state holding exactly one unpaid, un-archived item with a due
date within alert range and no active alert for it produces exactly one
non-dismissed alert for that item — the second run sees the alert created by
the first and creates nothing. -/
theorem checkDeadlines_no_duplicate_alert
    (s : StoreState) (it : Item) (now due : Int) (uid : String)
    (hmem : it ∈ s.items)
    (huniq : s.items.countP (fun x => x.id == it.id) = 1)
    (hp : it.status ≠ "paid") (har : it.status ≠ "archived")
    (hdue : it.due_date = some due)
    (hdays : daysUntilDue due now ≤ 7)
    (hnone : activeAlertCount it.id s.alerts = 0) :
    activeAlertCount it.id (checkDeadlines now none uid s).alerts = 1
      ∧ activeAlertCount it.id
          (checkDeadlines now none uid (checkDeadlines now none uid s)).alerts = 1 := by
  have hpa : (it.id == it.id) = true := by simp
  have hrun1 : (checkDeadlines now none uid s).alerts
      = s.alerts ++ createdAlerts s.alerts now defaultSettings uid s.nextId s.items := by
    unfold checkDeadlines
    rfl
  have hitems1 : (checkDeadlines now none uid s).items = s.items := by
    unfold checkDeadlines
    rfl
  have hcount1 :
      activeAlertCount it.id (createdAlerts s.alerts now defaultSettings uid s.nextId s.items) = 1 := by
    rw [activeAlertCount_createdAlerts]
    rw [countP_and_of_unique s.items _ _ it huniq hmem hpa]
    rw [eligibleAlert_isSome_default s.alerts now due it hdue hp har hnone hdays]
    rfl
  have h1 : activeAlertCount it.id (checkDeadlines now none uid s).alerts = 1 := by
    rw [hrun1]
    unfold activeAlertCount at hnone hcount1 ⊢
    rw [List.countP_append, hnone, hcount1]
  refine ⟨h1, ?_⟩
  have hrun2 : (checkDeadlines now none uid (checkDeadlines now none uid s)).alerts
      = (checkDeadlines now none uid s).alerts
        ++ createdAlerts (checkDeadlines now none uid s).alerts now defaultSettings uid
             (checkDeadlines now none uid s).nextId (checkDeadlines now none uid s).items := by
    unfold checkDeadlines
    rfl
  have hq2 : (eligibleAlert (checkDeadlines now none uid s).alerts now defaultSettings it).isSome
      = false := by
    rw [eligibleAlert_none_of_active _ now defaultSettings it (by omega)]
    rfl
  have hcount2 :
      activeAlertCount it.id
        (createdAlerts (checkDeadlines now none uid s).alerts now defaultSettings uid
          (checkDeadlines now none uid s).nextId (checkDeadlines now none uid s).items) = 0 := by
    rw [activeAlertCount_createdAlerts]
    rw [hitems1]
    rw [countP_and_of_unique s.items _ _ it huniq hmem hpa]
    rw [hq2]
    rfl
  rw [hrun2]
  unfold activeAlertCount at h1 hcount2 ⊢
  rw [List.countP_append, h1, hcount2]

/-- A concrete unpaid document due in three days. -/
def dueSoonItem : Item :=
  { id := "doc1", user_id := "u1", title := "Electricity Bill"
  , category := "Finance", due_date := some 259200000, status := "new" }

/-- A store state holding only `dueSoonItem` and no alerts. -/
def dueSoonState : StoreState :=
  { items := [dueSoonItem], upcomingItems := [], alerts := [], nextId := 0 }

/-- C6 witness: on the concrete state, one run creates exactly one active
alert for the document and a second run does not add another. -/
theorem checkDeadlines_no_duplicate_alert_witness :
    activeAlertCount "doc1" (checkDeadlines 0 none "u1" dueSoonState).alerts = 1
      ∧ activeAlertCount "doc1"
          (checkDeadlines 0 none "u1" (checkDeadlines 0 none "u1" dueSoonState)).alerts = 1 :=
  checkDeadlines_no_duplicate_alert dueSoonState dueSoonItem 0 259200000 "u1"
    (by decide) (by decide) (by decide) (by decide) rfl (by decide) (by decide)

-- ===========================================================================
-- Theorems about markAsPaid / dismissAlertsForItem (claim C7)
-- ===========================================================================

/-- An unpaid document with an active deadline alert. -/
def billItem : Item :=
  { id := "i1", user_id := "u1", title := "Phone Bill", category := "Finance"
  , due_date := some 86400000, status := "new" }

/-- A second document, also with an active alert. -/
def otherItem : Item :=
  { id := "i2", user_id := "u1", title := "Passport", category := "Other"
  , due_date := some 864000000, status := "new" }

/-- A state in which both documents have one active (non-dismissed) alert. -/
def paidFlowState : StoreState :=
  { items := [billItem, otherItem]
  , upcomingItems := [billItem]
  , alerts :=
      [ { id := 1, user_id := "u1", item_id := "i1", alert_type := "deadline_1day"
        , trigger_date := 86400000, is_dismissed := false, is_sent := false }
      , { id := 2, user_id := "u1", item_id := "i2", alert_type := "deadline_7day"
        , trigger_date := 864000000, is_dismissed := false, is_sent := false } ]
  , nextId := 3 }

/-- C7 (divergence at the failing input): on `paidFlowState`, `markAsPaid`
sets the document's status to "paid" but leaves its non-dismissed alert
fully intact — `markAsPaid` touches no alert state and no caller chains
`dismissAlertsForItem` after it. Had `dismissAlertsForItem` been invoked, it
would have dismissed exactly the paid document's alerts and left the other
document's alert unchanged, matching the claimed cascade. -/
theorem markAsPaid_leaves_alerts_active :
    (markAsPaid paidFlowState "i1").alerts = paidFlowState.alerts
      ∧ activeAlertCount "i1" (markAsPaid paidFlowState "i1").alerts = 1
      ∧ (markAsPaid paidFlowState "i1").items.countP
          (fun it => it.id == "i1" && it.status == "paid") = 1
      ∧ activeAlertCount "i1" (dismissAlertsForItem paidFlowState.alerts "i1") = 0
      ∧ (dismissAlertsForItem paidFlowState.alerts "i1").countP
          (fun a => a.item_id == "i2" && !a.is_dismissed) = 1 := by
  exact ⟨rfl, by decide, by decide, by decide, by decide⟩

-- ===========================================================================
-- src/lib/ocr.ts (part 1): RateLimiter
-- ===========================================================================

/-- State of the `RateLimiter` in `src/lib/ocr.ts`: the pending FIFO queue
and the outcomes already delivered to callers. Each task is a caller id
paired with the result or error its `request` thunk produces; the
`minDelayMs` pacing and `lastRequestTime` only affect timing, not which
outcome reaches which caller, and are not modelled. -/
structure RLState (ε ρ : Type) where
  queue : List (Nat × Except ε ρ)
  outcomes : List (Nat × Except ε ρ)

/-- `queueRequest`: appends the submission to the internal FIFO (the
`processQueue` kick-off is modelled by running `processQueue` afterwards). -/
def queueRequest {ε ρ : Type} (s : RLState ε ρ) (t : Nat × Except ε ρ) :
    RLState ε ρ :=
  { s with queue := s.queue ++ [t] }

/-- The `while (this.queue.length > 0)` worker loop of `processQueue`:
shift the head, run its request, and `resolve` on success or `reject` on
failure — in either case the loop continues with the rest of the queue. -/
def drainLoop {ε ρ : Type} (outcomes : List (Nat × Except ε ρ)) :
    List (Nat × Except ε ρ) → List (Nat × Except ε ρ)
  | [] => outcomes
  | t :: rest =>
    match t.2 with
    | .ok r => drainLoop (outcomes ++ [(t.1, .ok r)]) rest
    | .error e => drainLoop (outcomes ++ [(t.1, .error e)]) rest

/-- `processQueue` from the `RateLimiter`: drains the whole queue,
delivering one outcome per queued task. -/
def processQueue {ε ρ : Type} (s : RLState ε ρ) : RLState ε ρ :=
  { queue := [], outcomes := drainLoop s.outcomes s.queue }

lemma foldl_queueRequest {ε ρ : Type} (tasks : List (Nat × Except ε ρ))
    (s : RLState ε ρ) :
    tasks.foldl queueRequest s = { s with queue := s.queue ++ tasks } := by
  induction tasks generalizing s with
  | nil => simp
  | cons t rest ih =>
    rw [List.foldl_cons, ih]
    simp [queueRequest]

lemma drainLoop_spec {ε ρ : Type} (q : List (Nat × Except ε ρ)) :
    ∀ outcomes, drainLoop outcomes q = outcomes ++ q := by
  induction q with
  | nil => intro outcomes; simp [drainLoop]
  | cons t rest ih =>
    intro outcomes
    rcases t with ⟨i, o⟩
    cases o <;> simp [drainLoop, ih]

-- ===========================================================================
-- Theorem about the rate limiter (claim C9)
-- ===========================================================================

/-- C9: submitting any sequence of tasks and draining the queue delivers the
outcomes in FIFO submission order, pairs every caller id with exactly its own
task's result or error (outcomes are never rewritten), and a task that fails
does not prevent any later task from being dispatched — every submitted task
appears in the outcome list. -/
theorem rateLimiter_fifo_own_outcomes {ε ρ : Type}
    (tasks : List (Nat × Except ε ρ)) :
    processQueue (tasks.foldl queueRequest { queue := [], outcomes := [] })
      = { queue := [], outcomes := tasks } := by
  rw [foldl_queueRequest]
  unfold processQueue
  simp [drainLoop_spec]

-- ===========================================================================
-- src/stores/itemsStore.ts: scanDocument result (claim C10)
-- ===========================================================================

/-- `VaultFolder` from `src/types`, restricted to the fields `scanDocument`
reads. -/
structure VaultFolder where
  id : String
  name : String
  user_id : String
deriving DecidableEq

/-- `ScanResult` from `src/stores/itemsStore.ts`. -/
structure ScanResult where
  analysis : DocumentAnalysis
  imageUrl : String
  autoAssignedFolderId : Option String
  autoAssignedFolderName : Option String
  alertCreated : Bool
  alertType : Option String
deriving DecidableEq

/-- The success path of `scanDocument` from `src/stores/itemsStore.ts` after
the analysis has been obtained (the OCR and completion calls are abstracted
to the `analysis` they return): the folder name is resolved from the title
and category, matched case-insensitively against the existing folders, a new
folder is created when none matches (`createOk` models whether `addFolder`
succeeds), and the literal return value sets `alertCreated: false` and
`alertType: null`. -/
def scanDocument (analysis : DocumentAnalysis) (imageUri userId : String)
    (folders : List VaultFolder) (createOk : Bool) (newFolderId : String) :
    ScanResult :=
  let folderName := determineFolderName analysis.title analysis.category
  let targetFolder : Option VaultFolder :=
    match folders.find? (fun f => jsToLower f.name == jsToLower folderName) with
    | some f => some f
    | none =>
      if folderName ≠ "" && createOk then
        some { id := newFolderId, name := folderName, user_id := userId }
      else none
  { analysis := analysis
  , imageUrl := imageUri
  , autoAssignedFolderId := targetFolder.map (fun f => f.id)
  , autoAssignedFolderName := targetFolder.map (fun f => f.name)
  , alertCreated := false
  , alertType := none }

/-- C10: every successful `scanDocument` call reports `alertCreated = false`
and `alertType = null`, regardless of the analysis (due date included), the
folder situation, or whether a folder had to be created. -/
theorem scanDocument_never_reports_alert (analysis : DocumentAnalysis)
    (imageUri userId : String) (folders : List VaultFolder) (createOk : Bool)
    (newFolderId : String) :
    (scanDocument analysis imageUri userId folders createOk newFolderId).alertCreated
        = false
      ∧ (scanDocument analysis imageUri userId folders createOk newFolderId).alertType
        = none :=
  ⟨rfl, rfl⟩

end GryLin
